import Mathlib

/-!
Shallow embedding of `crates/ra_cargo_watch/src/lib.rs` (the cargo-check
supervision subsystem of rust-analyzer) and proofs about its claims.

The embedding mirrors the source structure:
  * the editor-protocol payload types (`Diagnostic`, `CodeAction`,
    `WorkDoneProgress`, ...) are modelled with the fields the core reads
    or builds, everything else kept as uninterpreted string payloads;
  * `run_cargo` is modelled over an explicit `ChildProcess` value that
    records the observable behaviour of the spawned process (the sequence
    of line-read outcomes and the final wait result), with the JSON
    deserializer passed in as a `parse` function and the stateful message
    sink as an explicit state-passing function;
  * the worker thread body of `WatchThread::new` and the control loop of
    `CheckWatcherThread::run` are modelled as functions producing the
    trace of channel operations they perform, one loop iteration per
    element of an input list (each element being one outcome of the
    `select!`);
  * the external translator `map_rust_diagnostic_to_lsp` (module `conv`,
    an external collaborator of the core) is a function parameter
    throughout.
-/

/-! ## Editor-protocol payload types (lsp_types) -/

/-- Uninterpreted rustc diagnostic payload carried by a compiler message
(`msg.message` in the source); the core never inspects it. -/
structure RustDiagnostic where
  payload : String
  deriving DecidableEq

/-- Uninterpreted editor diagnostic produced by the external translator. -/
structure Diagnostic where
  payload : String
  deriving DecidableEq

structure Url where
  uri : String
  deriving DecidableEq

/-- The part of `lsp_types::Location` the core reads (`location.uri`). -/
structure Location where
  uri : Url
  deriving DecidableEq

/-- `lsp_types::CodeAction`: `diagnostics` is the field the core writes
(`CodeAction { diagnostics: Some(vec![diagnostic.clone()]), ..fix }`);
`title` stands for all the other fields kept unchanged by the update. -/
structure CodeAction where
  title : String
  diagnostics : Option (List Diagnostic)
  deriving DecidableEq

inductive CodeActionOrCommand
  | codeAction (action : CodeAction)
  deriving DecidableEq

structure WorkDoneProgressBegin where
  title : String
  cancellable : Option Bool
  message : Option String
  percentage : Option Nat
  deriving DecidableEq

structure WorkDoneProgressReport where
  cancellable : Option Bool
  message : Option String
  percentage : Option Nat
  deriving DecidableEq

structure WorkDoneProgressEnd where
  message : Option String
  deriving DecidableEq

inductive WorkDoneProgress
  | Begin (b : WorkDoneProgressBegin)
  | Report (r : WorkDoneProgressReport)
  | End (e : WorkDoneProgressEnd)
  deriving DecidableEq

/-! ## cargo_metadata message model -/

structure Target where
  name : String
  deriving DecidableEq

/-- `cargo_metadata::Artifact`: the fields the core reads. -/
structure Artifact where
  fresh : Bool
  target : Target
  deriving DecidableEq

/-- `cargo_metadata::CompilerMessage`: the core only reads `message`. -/
structure CompilerMessageData where
  message : RustDiagnostic
  deriving DecidableEq

/-- `cargo_metadata::Message`, the four variants the core distinguishes. -/
inductive Message
  | CompilerArtifact (artifact : Artifact)
  | CompilerMessage (msg : CompilerMessageData)
  | BuildScriptExecuted
  | Unknown
  deriving DecidableEq

/-! ## Core data model (lib.rs) -/

structure CheckOptions where
  enable : Bool
  args : List String
  command : String
  all_targets : Bool
  deriving DecidableEq

inductive CheckTask
  | ClearDiagnostics
  | AddDiagnostic (url : Url) (diagnostic : Diagnostic) (fixes : List CodeActionOrCommand)
  | Status (progress : WorkDoneProgress)
  deriving DecidableEq

inductive CheckCommand
  | Update
  deriving DecidableEq

inductive CheckEvent
  | Begin
  | Msg (msg : Message)
  | End
  deriving DecidableEq

/-- Result of the external translator `map_rust_diagnostic_to_lsp`. -/
structure MappedRustDiagnostic where
  location : Location
  diagnostic : Diagnostic
  fixes : List CodeAction
  deriving DecidableEq

/-- Type of the external translator `map_rust_diagnostic_to_lsp`
(module `conv`, out of core scope): diagnostic payload and workspace
root to a list of zero or more mapped diagnostics. -/
def Translator : Type := RustDiagnostic → String → List MappedRustDiagnostic

/-! ## Channel model

A crossbeam sender paired with its receiver is modelled as a
`ChannelState`: the list of messages delivered so far and whether the
receiving side is still alive.  `send(e).is_ok()` on an open channel
appends and returns true; on a closed channel it leaves the state
unchanged and returns false. -/

structure ChannelState where
  sent : List CheckEvent
  isOpen : Bool
  deriving DecidableEq

def chanSendIsOk (ch : ChannelState) (e : CheckEvent) : ChannelState × Bool :=
  if ch.isOpen then ({ sent := ch.sent ++ [e], isOpen := true }, true)
  else (ch, false)

/-- Behaviour of a crossbeam receiver as seen by its consumer:
`never` is `crossbeam_channel::never()` (never yields a message, never
reports disconnection); `closedAfter evs` is a channel whose senders are
all dropped after delivering `evs` (yields `evs` in order, then reports
disconnection). -/
inductive RecvBehavior (α : Type)
  | never
  | closedAfter (events : List α)
  deriving DecidableEq

/-- Outcome of one blocking `recv()` on a receiver behaviour. -/
inductive RecvOutcome (α : Type)
  | msg (e : α)
  | disconnected
  | blocksForever
  deriving DecidableEq

def recvFirst {α : Type} : RecvBehavior α → RecvOutcome α
  | RecvBehavior.never => RecvOutcome.blocksForever
  | RecvBehavior.closedAfter [] => RecvOutcome.disconnected
  | RecvBehavior.closedAfter (e :: _) => RecvOutcome.msg e

/-! ## Process Runner: `run_cargo` -/

/-- One outcome of `stdout.lines()`: a successfully read line, or a read
failure (`Err(err)`, which the source logs and skips). -/
inductive LineResult
  | line (s : String)
  | readFailure
  deriving DecidableEq

/-- `std::process::ExitStatus`: its success flag and its `{:?}` rendering
(used verbatim in the error message). -/
structure ExitStatus where
  success : Bool
  debugStr : String
  deriving DecidableEq

/-- Observable behaviour of the spawned child process: the line-read
outcomes produced by its stdout, and the result of `child.wait()`
(an io error rendering, or an exit status). -/
structure ChildProcess where
  lines : List LineResult
  waitResult : Except String ExitStatus

structure CargoError where
  msg : String
  deriving DecidableEq

def noValidMetadataPrefix : String := "the command produced no valid metadata (exit code: "

def noValidMetadataMid : String := "): cargo "

def ioErrorPrefix : String := "io error: "

def spaceSep : String := " "

/-- The `for line in stdout.lines()` loop of `run_cargo`: threads the
sink state `s` and the `read_at_least_one_message` flag.  A read failure
or an unparsable line is logged and skipped; a parsed message sets the
flag and is fed to `on_message`, whose false return breaks the loop. -/
def cargoReadLoop {σ : Type} (parse : String → Option Message)
    (on_message : σ → Message → σ × Bool) :
    List LineResult → σ → Bool → σ × Bool
  | [], s, readOne => (s, readOne)
  | LineResult.readFailure :: rest, s, readOne =>
      cargoReadLoop parse on_message rest s readOne
  | LineResult.line l :: rest, s, readOne =>
      match parse l with
      | none => cargoReadLoop parse on_message rest s readOne
      | some message =>
          let r := on_message s message
          if r.2 then cargoReadLoop parse on_message rest r.1 true
          else (r.1, true)

/-- `run_cargo(args, current_dir, on_message)`.  The child process and
the JSON deserializer are explicit parameters; the sink is stateful via
explicit state passing, and the returned state is the sink state after
the read loop.  `child.kill()` has no observable effect in the model. -/
def run_cargo {σ : Type} (args : List String) (child : ChildProcess)
    (parse : String → Option Message)
    (on_message : σ → Message → σ × Bool) (s0 : σ) :
    σ × Except CargoError Unit :=
  let r := cargoReadLoop parse on_message child.lines s0 false
  match child.waitResult with
  | Except.ok exit_code =>
      if !exit_code.success && !r.2 then
        (r.1, Except.error
          { msg := noValidMetadataPrefix ++ exit_code.debugStr ++
              noValidMetadataMid ++ String.intercalate spaceSep args })
      else (r.1, Except.ok ())
  | Except.error err => (r.1, Except.error { msg := ioErrorPrefix ++ err })

/-! ## Worker: `WatchThread` -/

def workspaceFlag : String := "--workspace"

def messageFormatFlag : String := "--message-format=json"

def manifestPathFlag : String := "--manifest-path"

def manifestSuffix : String := "/Cargo.toml"

def allTargetsFlag : String := "--all-targets"

/-- Argument-list assembly at the top of `WatchThread::new`. -/
def watchArgs (options : CheckOptions) (workspace_root : String) : List String :=
  let base := [options.command, workspaceFlag, messageFormatFlag,
    manifestPathFlag, workspace_root ++ manifestSuffix]
  (if options.all_targets then base ++ [allTargetsFlag] else base) ++ options.args

/-- The message sink closure passed to `run_cargo` by the worker thread:
drops fresh artifacts, build-script results and unknown messages
(returning true to keep reading), forwards everything else as a `Msg`
event and returns `send(..).is_ok()`. -/
def watchSink (ch : ChannelState) (message : Message) : ChannelState × Bool :=
  match message with
  | Message.CompilerArtifact artifact =>
      if artifact.fresh then (ch, true)
      else chanSendIsOk ch (CheckEvent.Msg message)
  | Message.BuildScriptExecuted => (ch, true)
  | Message.Unknown => (ch, true)
  | Message.CompilerMessage _ => chanSendIsOk ch (CheckEvent.Msg message)

/-- Body of the worker thread spawned by `WatchThread::new` when enabled,
run against a channel whose receiver stays alive for the whole run
(`isOpen := true`): attempt `send(Begin)` ignoring the result, run
`run_cargo` with `watchSink`, log (not emit) a runner error, attempt
`send(End)` ignoring the result.  Returns the final channel state. -/
def watchThreadBody (options : CheckOptions) (workspace_root : String)
    (child : ChildProcess) (parse : String → Option Message) : ChannelState :=
  let ch0 : ChannelState := { sent := [], isOpen := true }
  let ch1 := (chanSendIsOk ch0 CheckEvent.Begin).1
  let r := run_cargo (watchArgs options workspace_root) child parse watchSink ch1
  (chanSendIsOk r.1 CheckEvent.End).1

/-- `WatchThread`: the receiver behaviour its owner observes, and whether
a thread handle is held (`_handle.is_some()`). -/
structure WatchThread where
  message_recv : RecvBehavior CheckEvent
  handle : Bool
  deriving DecidableEq

/-- `WatchThread::dummy()`: no thread, `never()` receiver. -/
def WatchThread.dummy : WatchThread :=
  { message_recv := RecvBehavior.never, handle := false }

/-- `WatchThread::new`: when enabled, the receiver yields exactly what
the spawned thread body delivers and then reports disconnection (the
sender is moved into the thread and dropped when it finishes); when
disabled, no thread is spawned and the sender is dropped immediately, so
the receiver reports disconnection having delivered nothing. -/
def WatchThread.new (options : CheckOptions) (workspace_root : String)
    (child : ChildProcess) (parse : String → Option Message) : WatchThread :=
  if options.enable then
    { message_recv := RecvBehavior.closedAfter
        (watchThreadBody options workspace_root child parse).sent,
      handle := true }
  else
    { message_recv := RecvBehavior.closedAfter [], handle := false }

/-! ## Supervisor: `CheckWatcherThread` -/

def checkProgressTitle : String := "Running \x27cargo check\x27"

/-- The sequence of task requests `CheckWatcherThread::handle_message`
attempts to send for one worker event, in source order.  The external
translator is the `translate` parameter; `ws` is `self.workspace_root`. -/
def handleMessageTasks (translate : Translator) (ws : String)
    (msg : CheckEvent) : List CheckTask :=
  match msg with
  | CheckEvent.Begin =>
      [CheckTask.Status (WorkDoneProgress.Begin
        { title := checkProgressTitle, cancellable := some false,
          message := none, percentage := none })]
  | CheckEvent.End =>
      [CheckTask.Status (WorkDoneProgress.End { message := none })]
  | CheckEvent.Msg (Message.CompilerArtifact msg) =>
      [CheckTask.Status (WorkDoneProgress.Report
        { cancellable := some false, message := some msg.target.name,
          percentage := none })]
  | CheckEvent.Msg (Message.CompilerMessage msg) =>
      let map_result := translate msg.message ws
      if map_result.isEmpty then []
      else map_result.map (fun mapped =>
        let fixes := mapped.fixes.map (fun fix =>
          CodeActionOrCommand.codeAction
            { fix with diagnostics := some [mapped.diagnostic] })
        CheckTask.AddDiagnostic mapped.location.uri mapped.diagnostic fixes)
  | CheckEvent.Msg Message.BuildScriptExecuted => []
  | CheckEvent.Msg Message.Unknown => []

/-- Abstract state of the supervisor `CheckWatcherThread` plus the
identity of its current watcher: `last_update_req` is the presence flag
of the `Option<Instant>` field; `watcherGen` numbers the current watcher
(generation 0 is the initial `WatchThread::dummy()`), `watcherLive`
records whether `self.watcher.message_recv` is a real channel (true) or
was replaced by `never()` / is the initial dummy (false); `nextGen` is
the next fresh generation number. -/
structure CheckWatcherState where
  options : CheckOptions
  workspace_root : String
  last_update_req : Bool
  watcherGen : Nat
  watcherLive : Bool
  nextGen : Nat
  deriving DecidableEq

/-- `CheckWatcherThread::new`: no pending request, dummy watcher. -/
def CheckWatcherThread.new (options : CheckOptions) (workspace_root : String) :
    CheckWatcherState :=
  { options := options, workspace_root := workspace_root,
    last_update_req := false, watcherGen := 0, watcherLive := false,
    nextGen := 1 }

def should_recheck (st : CheckWatcherState) : Bool := st.last_update_req

def handle_command (st : CheckWatcherState) (cmd : CheckCommand) : CheckWatcherState :=
  match cmd with
  | CheckCommand.Update => { st with last_update_req := true }

/-- One outcome of the `select!` in `CheckWatcherThread::run`:
a command received, the command channel closed, a message from the
current watcher (tagged with that watcher generation), or the current
watcher channel reporting closure. -/
inductive SelectOutcome
  | cmd (c : CheckCommand)
  | cmdClosed
  | watcherMsg (gen : Nat) (m : CheckEvent)
  | watcherClosed
  deriving DecidableEq

/-- One observable action of the supervisor thread, in program order:
a task sent on `task_send` translated from an event of watcher `gen`,
the `ClearDiagnostics` task sent on restart, the drop (kill + join) of
the watcher of generation `gen`, the construction of a new watcher. -/
inductive SupAction
  | emitTask (gen : Nat) (t : CheckTask)
  | emitClear
  | dropWatcher (gen : Nat)
  | newWatcher (gen : Nat)
  deriving DecidableEq

/-- The supervisor thread dies by `unwrap()` on a failed send. -/
inductive UnwrapPanic
  | sendOnClosedChannel
  deriving DecidableEq

/-- Sequential `task_send.send(t).unwrap()` for each task: on an open
channel every task is emitted; on a closed channel the first send
panics the thread. -/
def sendUnwrapAll (chOpen : Bool) (gen : Nat) :
    List CheckTask → Except UnwrapPanic (List SupAction)
  | [] => Except.ok []
  | t :: ts =>
      if chOpen then
        match sendUnwrapAll chOpen gen ts with
        | Except.ok acts => Except.ok (SupAction.emitTask gen t :: acts)
        | Except.error p => Except.error p
      else Except.error UnwrapPanic.sendOnClosedChannel

/-- `CheckWatcherThread::handle_message`: sends each task of
`handleMessageTasks` with `unwrap()`. -/
def handle_message (translate : Translator) (chOpen : Bool)
    (st : CheckWatcherState) (gen : Nat) (msg : CheckEvent) :
    Except UnwrapPanic (List SupAction) :=
  sendUnwrapAll chOpen gen (handleMessageTasks translate st.workspace_root msg)

/-- One iteration of the loop in `CheckWatcherThread::run`, given the
outcome of the `select!`: the select arm first (command handling, break
on command-channel closure, `handle_message`, or replacing a finished
watcher receiver by `never()`), then the `should_recheck` block (clear
the pending flag, `send(ClearDiagnostics).unwrap()`, drop the current
watcher by replacing it with a dummy, construct the new watcher).
Returns the new state, the actions performed in order, and whether the
loop broke; or the panic if a send was unwrapped on a closed channel. -/
def runStep (translate : Translator) (chOpen : Bool)
    (st : CheckWatcherState) (inp : SelectOutcome) :
    Except UnwrapPanic (CheckWatcherState × List SupAction × Bool) :=
  let armRes : Except UnwrapPanic (CheckWatcherState × List SupAction × Bool) :=
    match inp with
    | SelectOutcome.cmd c => Except.ok (handle_command st c, [], false)
    | SelectOutcome.cmdClosed => Except.ok (st, [], true)
    | SelectOutcome.watcherMsg gen m =>
        match handle_message translate chOpen st gen m with
        | Except.ok acts => Except.ok (st, acts, false)
        | Except.error p => Except.error p
    | SelectOutcome.watcherClosed =>
        Except.ok ({ st with watcherLive := false }, [], false)
  match armRes with
  | Except.error p => Except.error p
  | Except.ok (st1, acts, broke) =>
      if broke then Except.ok (st1, acts, true)
      else if should_recheck st1 then
        if chOpen then
          Except.ok
            ({ st1 with last_update_req := false,
                        watcherGen := st1.nextGen, watcherLive := true,
                        nextGen := st1.nextGen + 1 },
             acts ++ [SupAction.emitClear, SupAction.dropWatcher st1.watcherGen,
               SupAction.newWatcher st1.nextGen],
             false)
        else Except.error UnwrapPanic.sendOnClosedChannel
      else Except.ok (st1, acts, false)

/-- The action trace of `CheckWatcherThread::run` over a sequence of
select outcomes, with the task channel open throughout (the panic branch
is unreachable then and yields the empty continuation). -/
def runTrace (translate : Translator) :
    CheckWatcherState → List SelectOutcome → List SupAction
  | _, [] => []
  | st, inp :: rest =>
      match runStep translate true st inp with
      | Except.error _ => []
      | Except.ok (st2, acts, broke) =>
          if broke then acts else acts ++ runTrace translate st2 rest

/-- Whether one select outcome can actually occur in state `st`:
watcher messages and watcher-closure only come from the current live
watcher channel (after a restart the old receiver is gone, and after
`watcherClosed` the receiver is `never()` until the next restart). -/
def selectOutcomeOk (st : CheckWatcherState) : SelectOutcome → Bool
  | SelectOutcome.watcherMsg gen _ => st.watcherLive && decide (gen = st.watcherGen)
  | SelectOutcome.watcherClosed => st.watcherLive
  | _ => true

/-- A sequence of select outcomes the real system can produce from
state `st`: each outcome is possible in the state it is consumed in. -/
def validOutcomes (translate : Translator) :
    CheckWatcherState → List SelectOutcome → Bool
  | _, [] => true
  | st, inp :: rest =>
      selectOutcomeOk st inp &&
      match runStep translate true st inp with
      | Except.error _ => false
      | Except.ok (st2, _, broke) =>
          if broke then true else validOutcomes translate st2 rest

/-! ## Facade: `CheckWatcher` -/

/-- `CheckWatcher`: the outbound task receiver behaviour, the optional
command sender (`some chOpen` when present, with `chOpen` whether the
supervisor thread still holds the receiving end), and whether a thread
handle is held. -/
structure CheckWatcher where
  task_recv : RecvBehavior CheckTask
  cmd_send : Option Bool
  handle : Bool
  deriving DecidableEq

/-- `CheckWatcher::dummy()`: `never()` task receiver, no command sender,
no thread handle. -/
def CheckWatcher.dummy : CheckWatcher :=
  { task_recv := RecvBehavior.never, cmd_send := none, handle := false }

/-- `CheckWatcher::update()`: if a command sender is present, send
`Update` with `unwrap()`; otherwise do nothing.  Returns the commands
sent, or the panic of an unwrapped failed send. -/
def CheckWatcher.update (w : CheckWatcher) :
    Except UnwrapPanic (List CheckCommand) :=
  match w.cmd_send with
  | some chOpen =>
      if chOpen then Except.ok [CheckCommand.Update]
      else Except.error UnwrapPanic.sendOnClosedChannel
  | none => Except.ok []

/-! ## Trace measurements (used only to state the claims) -/

def countClear : List SupAction → Nat
  | [] => 0
  | SupAction.emitClear :: rest => countClear rest + 1
  | _ :: rest => countClear rest

def countNewWatcher : List SupAction → Nat
  | [] => 0
  | SupAction.newWatcher _ :: rest => countNewWatcher rest + 1
  | _ :: rest => countNewWatcher rest

def countDropWatcher : List SupAction → Nat
  | [] => 0
  | SupAction.dropWatcher _ :: rest => countDropWatcher rest + 1
  | _ :: rest => countDropWatcher rest

/-- Every task emitted in the trace translated from a watcher event
carries a generation strictly above `g`. -/
def tagsAbove (g : Nat) : List SupAction → Bool
  | [] => true
  | SupAction.emitTask gen _ :: rest => decide (g < gen) && tagsAbove g rest
  | _ :: rest => tagsAbove g rest

/-- Restart ordering discipline of an action trace: every watcher drop
is immediately preceded by the `ClearDiagnostics` emission and
immediately followed by the construction of a strictly newer watcher,
and no task translated from an event of the dropped watcher occurs
anywhere after the drop. -/
def dropOrderOk : List SupAction → Bool
  | [] => true
  | SupAction.emitTask _ _ :: rest => dropOrderOk rest
  | SupAction.newWatcher _ :: rest => dropOrderOk rest
  | SupAction.emitClear :: SupAction.dropWatcher g :: SupAction.newWatcher g2 :: rest =>
      decide (g < g2) && tagsAbove g rest && dropOrderOk rest
  | SupAction.emitClear :: _ => false
  | SupAction.dropWatcher _ :: _ => false

/-! ## Concrete example values (for witnesses and counterexamples) -/

/-- A translator that maps every diagnostic to nothing. -/
def trivTranslate : Translator := fun _ _ => []

def wsEx : String := "/home/user/project"

def cargoCheckCmd : String := "check"

def enabledOpts : CheckOptions :=
  { enable := true, args := [], command := cargoCheckCmd, all_targets := false }

def disabledOpts : CheckOptions :=
  { enable := false, args := [], command := cargoCheckCmd, all_targets := false }

def exitZeroDebug : String := "ExitStatus(unix_wait_status(0))"

def exitOneDebug : String := "ExitStatus(unix_wait_status(256))"

def childOkEmpty : ChildProcess :=
  { lines := [], waitResult := Except.ok { success := true, debugStr := exitZeroDebug } }

def childFailEmpty : ChildProcess :=
  { lines := [], waitResult := Except.ok { success := false, debugStr := exitOneDebug } }

/-- A deserializer that parses no line. -/
def parseNone : String → Option Message := fun _ => none

/-- A sink that keeps every message and no state. -/
def sinkKeep : Unit → Message → Unit × Bool := fun s _ => (s, true)

def garbageLine : String := "not json"

def diagEx : RustDiagnostic := { payload := "error[E0308]: mismatched types" }

def compilerMsgEx : Message := Message.CompilerMessage { message := diagEx }

/-! ## Claim theorems -/

/-- Claim C3: for every invocation of `run_cargo`, a success exit status
yields `Ok`; a non-success exit status after at least one parsed message
(the `read_at_least_one_message` flag of the read loop) still yields
`Ok`; a non-success exit status with zero parsed messages yields an
error whose description contains the exit status rendering and the
invoked arguments (joined by spaces, as a suffix). -/
theorem run_cargo_exit_result {σ : Type} (args : List String)
    (child : ChildProcess) (parse : String → Option Message)
    (on_message : σ → Message → σ × Bool) (s0 : σ)
    (ec : ExitStatus) (hw : child.waitResult = Except.ok ec) :
    (ec.success = true →
      (run_cargo args child parse on_message s0).2 = Except.ok ()) ∧
    ((cargoReadLoop parse on_message child.lines s0 false).2 = true →
      (run_cargo args child parse on_message s0).2 = Except.ok ()) ∧
    (ec.success = false →
      (cargoReadLoop parse on_message child.lines s0 false).2 = false →
      ∃ e : CargoError,
        (run_cargo args child parse on_message s0).2 = Except.error e ∧
        (∃ u v, e.msg = u ++ ec.debugStr ++ v) ∧
        (∃ u, e.msg = u ++ String.intercalate spaceSep args)) := by
  refine ⟨?_, ?_, ?_⟩
  · intro hs
    simp [run_cargo, hw, hs]
  · intro hr
    simp [run_cargo, hw, hr]
  · intro hs hr
    refine ⟨{ msg := noValidMetadataPrefix ++ ec.debugStr ++ noValidMetadataMid ++
        String.intercalate spaceSep args }, ?_, ?_, ?_⟩
    · simp [run_cargo, hw, hs, hr]
    · refine ⟨noValidMetadataPrefix,
        noValidMetadataMid ++ String.intercalate spaceSep args, ?_⟩
      simp [String.append_assoc]
    · exact ⟨noValidMetadataPrefix ++ ec.debugStr ++ noValidMetadataMid, rfl⟩

/-- Witness for C3 at concrete inputs: a successful exit yields `Ok`,
and a failing exit with no parsed message yields the error containing
the exit status rendering and the joined arguments. -/
theorem run_cargo_exit_result_witness :
    ((run_cargo [cargoCheckCmd] childOkEmpty parseNone sinkKeep ()).2 = Except.ok ()) ∧
    (∃ e : CargoError,
      (run_cargo [cargoCheckCmd] childFailEmpty parseNone sinkKeep ()).2 = Except.error e ∧
      (∃ u v, e.msg = u ++ exitOneDebug ++ v) ∧
      (∃ u, e.msg = u ++ String.intercalate spaceSep [cargoCheckCmd])) :=
  ⟨(run_cargo_exit_result [cargoCheckCmd] childOkEmpty parseNone sinkKeep ()
      { success := true, debugStr := exitZeroDebug } rfl).1 rfl,
   (run_cargo_exit_result [cargoCheckCmd] childFailEmpty parseNone sinkKeep ()
      { success := false, debugStr := exitOneDebug } rfl).2.2 rfl rfl⟩

/-- Claim C6: a line that fails to be read or fails to parse is skipped
and does not abort the loop: `run_cargo` on a line list starting with
such a line behaves exactly as on the remaining lines (so every
subsequent valid line is still parsed and delivered to the sink, until
the sink stops the loop or the lines are exhausted). -/
theorem run_cargo_skips_invalid_line {σ : Type} (args : List String)
    (l : LineResult) (rest : List LineResult)
    (wait : Except String ExitStatus) (parse : String → Option Message)
    (on_message : σ → Message → σ × Bool) (s0 : σ)
    (h : l = LineResult.readFailure ∨
      ∃ s, l = LineResult.line s ∧ parse s = none) :
    run_cargo args { lines := l :: rest, waitResult := wait } parse on_message s0 =
      run_cargo args { lines := rest, waitResult := wait } parse on_message s0 := by
  rcases h with h | ⟨s, hl, hp⟩
  · subst h
    simp [run_cargo, cargoReadLoop]
  · subst hl
    simp [run_cargo, cargoReadLoop, hp]

/-- Witness for C6: prepending an unparsable garbage line leaves the
result of `run_cargo` unchanged. -/
theorem run_cargo_skips_invalid_line_witness :
    run_cargo [cargoCheckCmd]
        { lines := LineResult.line garbageLine :: childOkEmpty.lines,
          waitResult := childOkEmpty.waitResult } parseNone sinkKeep () =
      run_cargo [cargoCheckCmd]
        { lines := childOkEmpty.lines, waitResult := childOkEmpty.waitResult }
        parseNone sinkKeep () :=
  run_cargo_skips_invalid_line [cargoCheckCmd] (LineResult.line garbageLine)
    childOkEmpty.lines childOkEmpty.waitResult parseNone sinkKeep ()
    (Or.inr ⟨garbageLine, rfl, rfl⟩)

/-- Claim C5: the worker sink drops fresh artifacts, build-script
results and unknown messages without forwarding (returning true); every
other message is forwarded as a `Msg` event, and the sink returns false
exactly when the outbound channel is closed. -/
theorem watchSink_forwarding (ch : ChannelState) (m : Message) :
    ((∃ a, m = Message.CompilerArtifact a ∧ a.fresh = true) ∨
        m = Message.BuildScriptExecuted ∨ m = Message.Unknown →
      watchSink ch m = (ch, true)) ∧
    ((∀ a, m = Message.CompilerArtifact a → a.fresh = false) →
      m ≠ Message.BuildScriptExecuted → m ≠ Message.Unknown →
      ((ch.isOpen = true →
          watchSink ch m =
            ({ sent := ch.sent ++ [CheckEvent.Msg m], isOpen := true }, true)) ∧
        (ch.isOpen = false → watchSink ch m = (ch, false)))) := by
  constructor
  · rintro (⟨a, rfl, hf⟩ | rfl | rfl)
    · simp [watchSink, hf]
    · simp [watchSink]
    · simp [watchSink]
  · intro hart hbs hunk
    constructor
    · intro hop
      cases m with
      | CompilerArtifact a =>
          have hf := hart a rfl
          simp [watchSink, hf, chanSendIsOk, hop]
      | CompilerMessage d => simp [watchSink, chanSendIsOk, hop]
      | BuildScriptExecuted => exact absurd rfl hbs
      | Unknown => exact absurd rfl hunk
    · intro hop
      cases m with
      | CompilerArtifact a =>
          have hf := hart a rfl
          simp [watchSink, hf, chanSendIsOk, hop]
      | CompilerMessage d => simp [watchSink, chanSendIsOk, hop]
      | BuildScriptExecuted => exact absurd rfl hbs
      | Unknown => exact absurd rfl hunk

/-- Witness for C5: a build-script message is dropped with true; a
compiler message on a closed channel is not delivered and returns
false; the same message on an open channel is forwarded. -/
theorem watchSink_forwarding_witness :
    (watchSink { sent := [], isOpen := true } Message.BuildScriptExecuted =
      ({ sent := [], isOpen := true }, true)) ∧
    (watchSink { sent := [], isOpen := false } compilerMsgEx =
      ({ sent := [], isOpen := false }, false)) ∧
    (watchSink { sent := [], isOpen := true } compilerMsgEx =
      ({ sent := [CheckEvent.Msg compilerMsgEx], isOpen := true }, true)) :=
  ⟨(watchSink_forwarding { sent := [], isOpen := true }
      Message.BuildScriptExecuted).1 (Or.inr (Or.inl rfl)),
   ((watchSink_forwarding { sent := [], isOpen := false } compilerMsgEx).2
      (fun a h => nomatch h) (fun h => nomatch h) (fun h => nomatch h)).2 rfl,
   by
    have h := ((watchSink_forwarding { sent := [], isOpen := true } compilerMsgEx).2
      (fun a h => nomatch h) (fun h => nomatch h) (fun h => nomatch h)).1 rfl
    simpa using h⟩

/-- Claim C9: `update()` on the dummy `CheckWatcher` (where `cmd_send`
is `None`) is a total no-op: it sends no command and does not panic. -/
theorem dummy_update_noop :
    CheckWatcher.update CheckWatcher.dummy = Except.ok [] := rfl

/-- Claim C8: the event-to-task translation of `handle_message`: `Begin`
yields exactly one progress-begin status with the fixed title and not
cancellable; `End` exactly one progress-end status; an artifact message
exactly one progress-report status carrying the target name; a compiler
message one `AddDiagnostic` per translated diagnostic, each fix carrying
that diagnostic (nothing when the translator returns nothing);
build-script and unknown messages yield no task. -/
theorem handle_message_translation (translate : Translator) (ws : String) :
    (handleMessageTasks translate ws CheckEvent.Begin =
      [CheckTask.Status (WorkDoneProgress.Begin
        { title := checkProgressTitle, cancellable := some false,
          message := none, percentage := none })]) ∧
    (handleMessageTasks translate ws CheckEvent.End =
      [CheckTask.Status (WorkDoneProgress.End { message := none })]) ∧
    (∀ a : Artifact,
      handleMessageTasks translate ws (CheckEvent.Msg (Message.CompilerArtifact a)) =
        [CheckTask.Status (WorkDoneProgress.Report
          { cancellable := some false, message := some a.target.name,
            percentage := none })]) ∧
    (∀ d : CompilerMessageData,
      handleMessageTasks translate ws (CheckEvent.Msg (Message.CompilerMessage d)) =
        (translate d.message ws).map (fun mapped =>
          CheckTask.AddDiagnostic mapped.location.uri mapped.diagnostic
            (mapped.fixes.map (fun fix => CodeActionOrCommand.codeAction
              { fix with diagnostics := some [mapped.diagnostic] })))) ∧
    (handleMessageTasks translate ws (CheckEvent.Msg Message.BuildScriptExecuted) = []) ∧
    (handleMessageTasks translate ws (CheckEvent.Msg Message.Unknown) = []) := by
  refine ⟨rfl, rfl, fun a => rfl, fun d => ?_, rfl, rfl⟩
  cases h : translate d.message ws with
  | nil => simp [handleMessageTasks, h]
  | cons x xs => simp [handleMessageTasks, h]

/-! ## Worker run shape (helper lemmas for C4) -/

/-- On an open channel the worker sink either drops the message or
appends exactly one `Msg` event, always keeping the channel open and
returning true. -/
theorem watchSink_open (ch : ChannelState) (m : Message)
    (h : ch.isOpen = true) :
    watchSink ch m = (ch, true) ∨
      watchSink ch m = ({ sent := ch.sent ++ [CheckEvent.Msg m], isOpen := true }, true) := by
  cases m with
  | CompilerArtifact a =>
      cases hf : a.fresh with
      | true => exact Or.inl (by simp [watchSink, hf])
      | false => exact Or.inr (by simp [watchSink, hf, chanSendIsOk, h])
  | CompilerMessage d => exact Or.inr (by simp [watchSink, chanSendIsOk, h])
  | BuildScriptExecuted => exact Or.inl rfl
  | Unknown => exact Or.inl rfl

/-- Running the read loop with the worker sink from an open channel
appends only `Msg` events and keeps the channel open. -/
theorem cargoReadLoop_watchSink_sent (parse : String → Option Message) :
    ∀ (lines : List LineResult) (ch : ChannelState) (readOne : Bool),
    ch.isOpen = true →
    ∃ ms, (cargoReadLoop parse watchSink lines ch readOne).1 =
        { sent := ch.sent ++ ms, isOpen := true } ∧
      ∀ e ∈ ms, ∃ m, e = CheckEvent.Msg m := by
  intro lines
  induction lines with
  | nil =>
      intro ch readOne h
      refine ⟨[], ?_, by simp⟩
      cases ch with
      | mk sent isOpen => simp_all [cargoReadLoop]
  | cons l rest ih =>
      intro ch readOne h
      cases l with
      | readFailure => simpa [cargoReadLoop] using ih ch readOne h
      | line s =>
          cases hp : parse s with
          | none => simpa [cargoReadLoop, hp] using ih ch readOne h
          | some m =>
              rcases watchSink_open ch m h with hs | hs
              · have := ih ch true h
                simpa [cargoReadLoop, hp, hs] using this
              · rcases ih { sent := ch.sent ++ [CheckEvent.Msg m], isOpen := true }
                  true rfl with ⟨ms, hsent, hmsg⟩
                refine ⟨CheckEvent.Msg m :: ms, ?_, ?_⟩
                · simp [cargoReadLoop, hp, hs, hsent]
                · intro e he
                  rcases List.mem_cons.mp he with rfl | he2
                  · exact ⟨m, rfl⟩
                  · exact hmsg e he2

/-- The sink state returned by `run_cargo` is the read-loop state
(the wait phase does not touch it). -/
theorem run_cargo_fst {σ : Type} (args : List String) (child : ChildProcess)
    (parse : String → Option Message) (on_message : σ → Message → σ × Bool)
    (s0 : σ) :
    (run_cargo args child parse on_message s0).1 =
      (cargoReadLoop parse on_message child.lines s0 false).1 := by
  cases hw : child.waitResult with
  | ok ec =>
      by_cases hc : (!ec.success && !(cargoReadLoop parse on_message child.lines s0 false).2) = true
      · simp [run_cargo, hw, hc]
      · simp [run_cargo, hw, hc]
  | error err => simp [run_cargo, hw]

/-- Claim C4: for every run of an enabled worker, the delivered event
stream is exactly one `Begin`, then zero or more `Msg` events, then
exactly one `End` as the last event, and then disconnection; this holds
also when `run_cargo` returns an error (the failure is only logged). -/
theorem worker_run_shape (options : CheckOptions) (ws : String)
    (child : ChildProcess) (parse : String → Option Message)
    (h : options.enable = true) :
    ∃ ms, (WatchThread.new options ws child parse).message_recv =
        RecvBehavior.closedAfter (CheckEvent.Begin :: (ms ++ [CheckEvent.End])) ∧
      ∀ e ∈ ms, ∃ m, e = CheckEvent.Msg m := by
  rcases cargoReadLoop_watchSink_sent parse child.lines
      { sent := [CheckEvent.Begin], isOpen := true } false rfl with ⟨ms, hsent, hmsg⟩
  refine ⟨ms, ?_, hmsg⟩
  have hfst := run_cargo_fst (watchArgs options ws) child parse watchSink
    { sent := [CheckEvent.Begin], isOpen := true }
  simp [WatchThread.new, h, watchThreadBody, chanSendIsOk, hfst, hsent]

/-- Witness for C4: an enabled worker whose process produces no parsed
line delivers exactly `[Begin, End]`. -/
theorem worker_run_shape_witness :
    ∃ ms, (WatchThread.new enabledOpts wsEx childOkEmpty parseNone).message_recv =
        RecvBehavior.closedAfter (CheckEvent.Begin :: (ms ++ [CheckEvent.End])) ∧
      ∀ e ∈ ms, ∃ m, e = CheckEvent.Msg m :=
  worker_run_shape enabledOpts wsEx childOkEmpty parseNone rfl

/-- Counterexample to claim C7 as stated: with `enable = false`,
`WatchThread::new` drops the only sender at construction, so its event
source is an immediately-closed stream — the very first receive reports
channel closure instead of blocking forever like `never()`. -/
theorem disabled_worker_reports_closure :
    (WatchThread.new disabledOpts wsEx childOkEmpty parseNone).message_recv ≠
      (RecvBehavior.never : RecvBehavior CheckEvent) ∧
    recvFirst (WatchThread.new disabledOpts wsEx childOkEmpty parseNone).message_recv =
      RecvOutcome.disconnected := by
  decide

/-- Claim C7 (amended): with `enable = false`, the worker constructed by
`WatchThread::new` holds no thread and its event source yields no event,
but it reports channel closure immediately (the sender is dropped at
construction) rather than never yielding; the stream that never yields
and never reports closure is the one of `WatchThread::dummy`. -/
theorem disabled_worker_shape (options : CheckOptions) (ws : String)
    (child : ChildProcess) (parse : String → Option Message)
    (h : options.enable = false) :
    (WatchThread.new options ws child parse).handle = false ∧
    (WatchThread.new options ws child parse).message_recv =
      RecvBehavior.closedAfter [] ∧
    recvFirst (WatchThread.new options ws child parse).message_recv =
      RecvOutcome.disconnected ∧
    WatchThread.dummy.message_recv = RecvBehavior.never ∧
    recvFirst (WatchThread.dummy.message_recv) = RecvOutcome.blocksForever := by
  simp [WatchThread.new, h, WatchThread.dummy, recvFirst]

/-- Witness for C7 (amended) at a concrete disabled configuration. -/
theorem disabled_worker_shape_witness :
    (WatchThread.new disabledOpts wsEx childOkEmpty parseNone).handle = false ∧
    (WatchThread.new disabledOpts wsEx childOkEmpty parseNone).message_recv =
      RecvBehavior.closedAfter [] ∧
    recvFirst (WatchThread.new disabledOpts wsEx childOkEmpty parseNone).message_recv =
      RecvOutcome.disconnected ∧
    WatchThread.dummy.message_recv = RecvBehavior.never ∧
    recvFirst (WatchThread.dummy.message_recv) = RecvOutcome.blocksForever :=
  disabled_worker_shape disabledOpts wsEx childOkEmpty parseNone rfl

/-! ## Supervisor step lemmas -/

/-- The state after the restart block: pending flag cleared, the fresh
generation installed as the live watcher. -/
def restartState (st : CheckWatcherState) : CheckWatcherState :=
  { st with last_update_req := false, watcherGen := st.nextGen,
            watcherLive := true, nextGen := st.nextGen + 1 }

/-- The actions of the restart block, in program order: the
`ClearDiagnostics` send, the drop of the current watcher, the
construction of the new one. -/
def restartActions (st : CheckWatcherState) : List SupAction :=
  [SupAction.emitClear, SupAction.dropWatcher st.watcherGen,
    SupAction.newWatcher st.nextGen]

theorem sendUnwrapAll_open (gen : Nat) (ts : List CheckTask) :
    sendUnwrapAll true gen ts =
      Except.ok (ts.map fun t => SupAction.emitTask gen t) := by
  induction ts with
  | nil => rfl
  | cons t ts ih => simp [sendUnwrapAll, ih]

theorem runStep_cmdUpdate (translate : Translator) (st : CheckWatcherState) :
    runStep translate true st (SelectOutcome.cmd CheckCommand.Update) =
      Except.ok (restartState st, restartActions st, false) := rfl

theorem runStep_cmdClosed (translate : Translator) (st : CheckWatcherState) :
    runStep translate true st SelectOutcome.cmdClosed =
      Except.ok (st, [], true) := rfl

theorem runStep_watcherClosed (translate : Translator) (st : CheckWatcherState) :
    runStep translate true st SelectOutcome.watcherClosed =
      (if st.last_update_req then
        Except.ok (restartState st, restartActions st, false)
      else Except.ok ({ st with watcherLive := false }, [], false)) := by
  cases h : st.last_update_req <;>
    simp [runStep, should_recheck, h, restartState, restartActions]

theorem runStep_watcherMsg (translate : Translator) (st : CheckWatcherState)
    (gen : Nat) (m : CheckEvent) :
    runStep translate true st (SelectOutcome.watcherMsg gen m) =
      (if st.last_update_req then
        Except.ok (restartState st,
          ((handleMessageTasks translate st.workspace_root m).map
            fun t => SupAction.emitTask gen t) ++ restartActions st, false)
      else Except.ok (st,
        (handleMessageTasks translate st.workspace_root m).map
          fun t => SupAction.emitTask gen t, false)) := by
  cases h : st.last_update_req <;>
    simp [runStep, handle_message, sendUnwrapAll_open, should_recheck, h,
      restartState, restartActions]

/-! ## Counting lemmas (C1) -/

theorem runTrace_updates (translate : Translator) :
    ∀ (n : Nat) (st : CheckWatcherState),
    countClear (runTrace translate st
      (List.replicate n (SelectOutcome.cmd CheckCommand.Update))) = n ∧
    countDropWatcher (runTrace translate st
      (List.replicate n (SelectOutcome.cmd CheckCommand.Update))) = n ∧
    countNewWatcher (runTrace translate st
      (List.replicate n (SelectOutcome.cmd CheckCommand.Update))) = n := by
  intro n
  induction n with
  | zero =>
      intro st
      simp [runTrace, countClear, countDropWatcher, countNewWatcher]
  | succ k ih =>
      intro st
      rcases ih (restartState st) with ⟨h1, h2, h3⟩
      simp only [restartState] at h1 h2 h3
      refine ⟨?_, ?_, ?_⟩ <;>
        simp [List.replicate_succ, runTrace, runStep_cmdUpdate, restartState,
          restartActions, handle_command, countClear, countDropWatcher,
          countNewWatcher, h1, h2, h3]

/-- Counterexample to claim C1 as stated: two restart commands enqueued
on the command channel (hence consumed in two consecutive loop
iterations, each followed by a pending-restart check) produce two
teardown-and-replace cycles and two `ClearDiagnostics` emissions, not
one. -/
theorem two_updates_two_clears :
    countClear (runTrace trivTranslate (CheckWatcherThread.new enabledOpts wsEx)
      [SelectOutcome.cmd CheckCommand.Update, SelectOutcome.cmd CheckCommand.Update]) = 2 ∧
    countNewWatcher (runTrace trivTranslate (CheckWatcherThread.new enabledOpts wsEx)
      [SelectOutcome.cmd CheckCommand.Update, SelectOutcome.cmd CheckCommand.Update]) = 2 ∧
    ¬ (countClear (runTrace trivTranslate (CheckWatcherThread.new enabledOpts wsEx)
      [SelectOutcome.cmd CheckCommand.Update, SelectOutcome.cmd CheckCommand.Update]) = 1) := by
  refine ⟨rfl, rfl, by decide⟩

/-- Claim C1 (amended): restart commands are not coalesced — each of the
N enqueued restart commands is consumed in its own loop iteration whose
pending-restart check performs one teardown-and-replace cycle, so N
commands yield exactly N cycles and exactly N `ClearDiagnostics` task
requests, one per command. -/
theorem restart_per_update (translate : Translator) (options : CheckOptions)
    (ws : String) (n : Nat) :
    countClear (runTrace translate (CheckWatcherThread.new options ws)
      (List.replicate n (SelectOutcome.cmd CheckCommand.Update))) = n ∧
    countDropWatcher (runTrace translate (CheckWatcherThread.new options ws)
      (List.replicate n (SelectOutcome.cmd CheckCommand.Update))) = n ∧
    countNewWatcher (runTrace translate (CheckWatcherThread.new options ws)
      (List.replicate n (SelectOutcome.cmd CheckCommand.Update))) = n :=
  runTrace_updates translate n (CheckWatcherThread.new options ws)

/-- A supervisor state with a restart pending. -/
def pendingSt : CheckWatcherState :=
  { CheckWatcherThread.new enabledOpts wsEx with last_update_req := true }

/-- Claim C10: every send on the task channel in the control loop and in
`handle_message` is unwrapped, never treated as a stop signal: with the
outbound task channel closed, translating a worker event that emits at
least one task panics the supervisor thread inside `handle_message` (and
hence the loop iteration), and any iteration reaching the
pending-restart block panics at the `ClearDiagnostics` send. -/
theorem unwrapped_send_panics (translate : Translator) (st : CheckWatcherState)
    (gen : Nat) (m : CheckEvent) :
    (handleMessageTasks translate st.workspace_root m ≠ [] →
      handle_message translate false st gen m =
        Except.error UnwrapPanic.sendOnClosedChannel) ∧
    (st.last_update_req = true →
      runStep translate false st SelectOutcome.watcherClosed =
        Except.error UnwrapPanic.sendOnClosedChannel) ∧
    (handleMessageTasks translate st.workspace_root m ≠ [] →
      runStep translate false st (SelectOutcome.watcherMsg gen m) =
        Except.error UnwrapPanic.sendOnClosedChannel) ∧
    (runStep translate false st (SelectOutcome.cmd CheckCommand.Update) =
      Except.error UnwrapPanic.sendOnClosedChannel) := by
  refine ⟨?_, ?_, ?_, ?_⟩
  · intro hne
    cases h : handleMessageTasks translate st.workspace_root m with
    | nil => exact absurd h hne
    | cons t ts => simp [handle_message, h, sendUnwrapAll]
  · intro hreq
    simp [runStep, should_recheck, hreq]
  · intro hne
    cases h : handleMessageTasks translate st.workspace_root m with
    | nil => exact absurd h hne
    | cons t ts => simp [runStep, handle_message, h, sendUnwrapAll]
  · rfl

/-- Witness for C10: with the task channel closed, a `Begin` event
panics `handle_message`, and a pending restart panics the iteration. -/
theorem unwrapped_send_panics_witness :
    (handle_message trivTranslate false pendingSt 1 CheckEvent.Begin =
      Except.error UnwrapPanic.sendOnClosedChannel) ∧
    (runStep trivTranslate false pendingSt SelectOutcome.watcherClosed =
      Except.error UnwrapPanic.sendOnClosedChannel) ∧
    (runStep trivTranslate false pendingSt (SelectOutcome.watcherMsg 1 CheckEvent.Begin) =
      Except.error UnwrapPanic.sendOnClosedChannel) :=
  ⟨(unwrapped_send_panics trivTranslate pendingSt 1 CheckEvent.Begin).1 (by decide),
   (unwrapped_send_panics trivTranslate pendingSt 1 CheckEvent.Begin).2.1 rfl,
   (unwrapped_send_panics trivTranslate pendingSt 1 CheckEvent.Begin).2.2.1 (by decide)⟩

/-! ## Trace ordering lemmas (C2) -/

theorem tagsAbove_append (g : Nat) (A B : List SupAction) :
    tagsAbove g (A ++ B) = (tagsAbove g A && tagsAbove g B) := by
  induction A with
  | nil => simp [tagsAbove]
  | cons a A ih => cases a <;> simp [tagsAbove, ih, Bool.and_assoc]

theorem tagsAbove_map_emitTask (h g : Nat) (ts : List CheckTask) (hlt : h < g) :
    tagsAbove h (ts.map fun t => SupAction.emitTask g t) = true := by
  induction ts with
  | nil => rfl
  | cons t ts ih => simp [tagsAbove, ih, hlt]

theorem dropOrderOk_map_emitTask (g : Nat) (ts : List CheckTask) (B : List SupAction) :
    dropOrderOk ((ts.map fun t => SupAction.emitTask g t) ++ B) = dropOrderOk B := by
  induction ts with
  | nil => simp
  | cons t ts ih => simpa [dropOrderOk] using ih

theorem dropOrderOk_restart (st : CheckWatcherState) (B : List SupAction) :
    dropOrderOk (restartActions st ++ B) =
      (decide (st.watcherGen < st.nextGen) && tagsAbove st.watcherGen B &&
        dropOrderOk B) := by
  simp [restartActions, dropOrderOk]

theorem tagsAbove_restart (h : Nat) (st : CheckWatcherState) :
    tagsAbove h (restartActions st) = true := rfl

/-- Restart ordering invariant of the control loop: over any sequence of
select outcomes the real system can produce, the action trace satisfies
`dropOrderOk`, and all tasks translated from watcher events carry
generations at least the current one. -/
theorem runTrace_restart_inv (translate : Translator) :
    ∀ (inputs : List SelectOutcome) (st : CheckWatcherState),
    st.watcherGen < st.nextGen →
    validOutcomes translate st inputs = true →
    dropOrderOk (runTrace translate st inputs) = true ∧
    ∀ h, h < st.watcherGen → tagsAbove h (runTrace translate st inputs) = true := by
  intro inputs
  induction inputs with
  | nil =>
      intro st _ _
      exact ⟨rfl, fun h _ => rfl⟩
  | cons inp rest ih =>
      intro st hwf hv
      simp only [validOutcomes, Bool.and_eq_true] at hv
      rcases hv with ⟨hok, hrest⟩
      cases inp with
      | cmd c =>
          cases c
          rw [runStep_cmdUpdate] at hrest
          simp only [Bool.false_eq_true, if_false] at hrest
          have hwf2 : (restartState st).watcherGen < (restartState st).nextGen := by
            simp [restartState]
          rcases ih (restartState st) hwf2 hrest with ⟨ih1, ih2⟩
          have htag : tagsAbove st.watcherGen
              (runTrace translate (restartState st) rest) = true :=
            ih2 st.watcherGen (by simp [restartState, hwf])
          constructor
          · simp [runTrace, runStep_cmdUpdate, dropOrderOk_restart, hwf, htag, ih1]
          · intro h hlt
            have htag2 : tagsAbove h (runTrace translate (restartState st) rest) = true :=
              ih2 h (by simp [restartState]; omega)
            simp [runTrace, runStep_cmdUpdate, tagsAbove_append,
              tagsAbove_restart, htag2]
      | cmdClosed =>
          rw [runStep_cmdClosed] at hrest
          constructor
          · simp [runTrace, runStep_cmdClosed, dropOrderOk]
          · intro h hlt
            simp [runTrace, runStep_cmdClosed, tagsAbove]
      | watcherMsg gen m =>
          simp only [selectOutcomeOk, Bool.and_eq_true, decide_eq_true_eq] at hok
          rcases hok with ⟨hlive, hgen⟩
          subst hgen
          cases hreq : st.last_update_req with
          | false =>
              rw [runStep_watcherMsg] at hrest
              simp only [hreq, Bool.false_eq_true, if_false] at hrest
              rcases ih st hwf hrest with ⟨ih1, ih2⟩
              constructor
              · simp [runTrace, runStep_watcherMsg, hreq,
                  dropOrderOk_map_emitTask, ih1]
              · intro h hlt
                simp [runTrace, runStep_watcherMsg, hreq, tagsAbove_append,
                  tagsAbove_map_emitTask h st.watcherGen _ hlt, ih2 h hlt]
          | true =>
              rw [runStep_watcherMsg] at hrest
              simp only [hreq, if_true] at hrest
              have hwf2 : (restartState st).watcherGen < (restartState st).nextGen := by
                simp [restartState]
              rcases ih (restartState st) hwf2 hrest with ⟨ih1, ih2⟩
              have htag : tagsAbove st.watcherGen
                  (runTrace translate (restartState st) rest) = true :=
                ih2 st.watcherGen (by simp [restartState, hwf])
              constructor
              · simp [runTrace, runStep_watcherMsg, hreq, List.append_assoc,
                  dropOrderOk_map_emitTask, dropOrderOk_restart, hwf, htag, ih1]
              · intro h hlt
                have htag2 : tagsAbove h (runTrace translate (restartState st) rest) = true :=
                  ih2 h (by simp [restartState]; omega)
                simp [runTrace, runStep_watcherMsg, hreq, List.append_assoc,
                  tagsAbove_append, tagsAbove_restart,
                  tagsAbove_map_emitTask h st.watcherGen _ hlt, htag2]
      | watcherClosed =>
          cases hreq : st.last_update_req with
          | false =>
              rw [runStep_watcherClosed] at hrest
              simp only [hreq, Bool.false_eq_true, if_false] at hrest
              rcases ih { st with last_update_req := false, watcherLive := false }
                hwf hrest with ⟨ih1, ih2⟩
              constructor
              · simp [runTrace, runStep_watcherClosed, hreq, ih1]
              · intro h hlt
                simpa [runTrace, runStep_watcherClosed, hreq] using ih2 h hlt
          | true =>
              rw [runStep_watcherClosed] at hrest
              simp only [hreq, if_true] at hrest
              have hwf2 : (restartState st).watcherGen < (restartState st).nextGen := by
                simp [restartState]
              rcases ih (restartState st) hwf2 hrest with ⟨ih1, ih2⟩
              have htag : tagsAbove st.watcherGen
                  (runTrace translate (restartState st) rest) = true :=
                ih2 st.watcherGen (by simp [restartState, hwf])
              constructor
              · simp [runTrace, runStep_watcherClosed, hreq, dropOrderOk_restart,
                  hwf, htag, ih1]
              · intro h hlt
                have htag2 : tagsAbove h (runTrace translate (restartState st) rest) = true :=
                  ih2 h (by simp [restartState]; omega)
                simp [runTrace, runStep_watcherClosed, hreq, tagsAbove_append,
                  tagsAbove_restart, htag2]

/-- Claim C2: in every execution of the supervisor loop over select
outcomes the real system can produce, `dropOrderOk` holds of the action
trace: every watcher drop is immediately preceded by the
`ClearDiagnostics` emission and immediately followed by the construction
of a strictly newer watcher (so `ClearDiagnostics` is emitted before the
old worker is dropped and before the replacement is constructed), and no
task translated from an event of the dropped watcher occurs anywhere
after it — hence no event of a superseded worker is delivered after the
`ClearDiagnostics` request, which precedes every task of the
run of the replacement worker. -/
theorem restart_ordering (translate : Translator) (options : CheckOptions)
    (ws : String) (inputs : List SelectOutcome)
    (h : validOutcomes translate (CheckWatcherThread.new options ws) inputs = true) :
    dropOrderOk (runTrace translate (CheckWatcherThread.new options ws) inputs) = true :=
  (runTrace_restart_inv translate inputs (CheckWatcherThread.new options ws)
    Nat.zero_lt_one h).1

/-- A concrete feasible run for the C2 witness: a restart, an event of
the first real worker, a second restart and an event of its
replacement, then that worker finishing. -/
def c2Inputs : List SelectOutcome :=
  [SelectOutcome.cmd CheckCommand.Update,
    SelectOutcome.watcherMsg 1 CheckEvent.Begin,
    SelectOutcome.cmd CheckCommand.Update,
    SelectOutcome.watcherMsg 2 CheckEvent.End,
    SelectOutcome.watcherClosed]

/-- Witness for C2 at a concrete feasible run. -/
theorem restart_ordering_witness :
    dropOrderOk (runTrace trivTranslate (CheckWatcherThread.new enabledOpts wsEx)
      c2Inputs) = true :=
  restart_ordering trivTranslate enabledOpts wsEx c2Inputs (by decide)
